import Mathlib

/-!
Verification of the NFL StatPad core engine (puzzle generation override
store, submission validation, and percentile scoring) against its
natural-language specification.

The Python source (src/game/validator.py, src/game/scorer.py,
src/game/puzzle_generator.py, src/config.py) is shallowly embedded below:

* a Polars DataFrame becomes a `StatsTable`: a list of column names plus a
  list of `PlayerRow` records whose per-stat values are an association list
  from column name to `Option ℚ` (`none` models a null / missing value);
* Python floats are idealized as rationals (`ℚ`), Python ints as `ℤ`;
* `polars.sort(col, descending=True)` becomes `sortByStatDesc`
  (an executable insertion sort on the same key);
* `str.contains` (used with plain player-name fragments) is modeled as
  literal substring containment, `str.to_lowercase` as a character map;
* the JSON override file becomes an explicit association list `Store`
  threaded through the functions that read or write it, and the daily
  puzzle generator (MD5-seeded Mersenne Twister, whose output content is
  irrelevant to every override claim) is abstracted as an explicit
  function argument `gen : String → Puzzle` keyed by the ISO date string.
-/

/-! ## String helpers (models of `str.lower`, `str.strip`, `str.contains`) -/

/-- Model of Python `str.lower()` for ASCII names. -/
def strLower (s : String) : String := String.mk (s.data.map Char.toLower)

/-- Model of Python `str.strip()`. -/
def strTrim (s : String) : String :=
  String.mk (((s.data.dropWhile Char.isWhitespace).reverse.dropWhile
    Char.isWhitespace).reverse)

/-- Does `pat` occur contiguously inside the character list? -/
def listContainsSub (pat : List Char) : List Char → Bool
  | [] => pat.isPrefixOf []
  | c :: t => pat.isPrefixOf (c :: t) || listContainsSub pat t

/-- Model of Python `pat in s` / Polars `str.contains` with a literal
pattern: substring containment. -/
def strContainsSub (s pat : String) : Bool := listContainsSub pat.data s.data

/-! ## Data model -/

/-- One row of the season-level stats table: one (player, season) record.
`stats` maps a stat-column name to its value; `none` is a null cell. -/
structure PlayerRow where
  player : String
  season : ℤ
  team : String
  position : String
  player_id : Option String := none
  espn_id : Option String := none
  headshot_url : Option String := none
  stats : List (String × Option ℚ) := []
deriving DecidableEq

/-- `row.get(col)`: a missing column and a null cell both give `none`. -/
def PlayerRow.stat (r : PlayerRow) (c : String) : Option ℚ :=
  (r.stats.lookup c).getD none

/-- The Polars DataFrame: column names plus rows. -/
structure StatsTable where
  cols : List String
  rows : List PlayerRow
deriving DecidableEq

/-- One puzzle row's criteria dict (all nine keys produced by
`generate_criteria`; a `none` field is an unpopulated / falsy entry). -/
structure RowCriteria where
  team : Option String := none
  year_start : Option ℤ := none
  year_end : Option ℤ := none
  position : Option String := none
  division : Option String := none
  conference : Option String := none
  qualifier : Option String := none
  qualifier_type : Option String := none
  qualifier_display : Option String := none
deriving DecidableEq

/-- The `player_data` dict built by `validate_player_submission`. -/
structure PlayerData where
  player : String
  season : ℤ
  team : String
  position : String
  stat_value : ℚ
  player_id : Option String := none
  espn_id : Option String := none
  headshot_url : Option String := none
  qualifier_value : Option ℚ := none
deriving DecidableEq

/-- The dict returned by `score_submission`. -/
structure ScoreResult where
  score : ℚ
  percentile : ℚ
  tier : String
  tier_color : String
  tier_emoji : String
  rank : ℤ
  total_valid : ℕ
deriving DecidableEq

/-- The puzzle dict assembled by `generate_puzzle` and stored by
`save_override`. -/
structure Puzzle where
  date : String
  stat_category : String
  stat_display : String
  stat_type : String
  stat_description : String
  rows : List RowCriteria
deriving DecidableEq

/-- One `STAT_QUALIFIERS` catalog entry (`qtype` is the dict's `type`
key; absent dict keys are the `.get` defaults used by the evaluator). -/
structure QualifierInfo where
  display : String := "qualifier"
  qtype : String := ""
  column : Option String := none
  operator : String := ">="
  value : ℚ := 0
  position : Option String := none
  rank_column : String := "fantasy_points"
  max_rank : Option ℤ := none
  min_rank : Option ℤ := none
  qualifier_type : String := "same_season"
  eligible_positions : List String := []
  eligible_stat_types : List String := []
deriving DecidableEq

/-- One `NFL_TEAMS` entry. -/
structure TeamInfo where
  name : String
  division : String
deriving DecidableEq

/-! ## config.py: static tables -/

/-- `TIER_THRESHOLDS` from config.py. -/
def tierThreshold : String → ℚ
  | "diamond" => 100
  | "gold" => 90
  | "silver" => 75
  | "bronze" => 50
  | _ => 0

/-- `TIER_COLORS` from config.py. -/
def TIER_COLORS : List (String × String) :=
  [("diamond", "#3B82F6"), ("gold", "#F59E0B"), ("silver", "#9CA3AF"),
   ("bronze", "#CD7F32"), ("iron", "#374151")]

/-- `TIER_EMOJIS` from config.py. -/
def TIER_EMOJIS : List (String × String) :=
  [("diamond", "🟦"), ("gold", "🟨"), ("silver", "⬜"),
   ("bronze", "🟫"), ("iron", "⬛")]

/-- `NFL_TEAMS` from config.py. -/
def NFL_TEAMS : List (String × TeamInfo) :=
  [("ARI", ⟨"Arizona Cardinals", "NFC West"⟩),
   ("ATL", ⟨"Atlanta Falcons", "NFC South"⟩),
   ("BAL", ⟨"Baltimore Ravens", "AFC North"⟩),
   ("BUF", ⟨"Buffalo Bills", "AFC East"⟩),
   ("CAR", ⟨"Carolina Panthers", "NFC South"⟩),
   ("CHI", ⟨"Chicago Bears", "NFC North"⟩),
   ("CIN", ⟨"Cincinnati Bengals", "AFC North"⟩),
   ("CLE", ⟨"Cleveland Browns", "AFC North"⟩),
   ("DAL", ⟨"Dallas Cowboys", "NFC East"⟩),
   ("DEN", ⟨"Denver Broncos", "AFC West"⟩),
   ("DET", ⟨"Detroit Lions", "NFC North"⟩),
   ("GB", ⟨"Green Bay Packers", "NFC North"⟩),
   ("HOU", ⟨"Houston Texans", "AFC South"⟩),
   ("IND", ⟨"Indianapolis Colts", "AFC South"⟩),
   ("JAX", ⟨"Jacksonville Jaguars", "AFC South"⟩),
   ("KC", ⟨"Kansas City Chiefs", "AFC West"⟩),
   ("LAC", ⟨"Los Angeles Chargers", "AFC West"⟩),
   ("LAR", ⟨"Los Angeles Rams", "NFC West"⟩),
   ("LV", ⟨"Las Vegas Raiders", "AFC West"⟩),
   ("MIA", ⟨"Miami Dolphins", "AFC East"⟩),
   ("MIN", ⟨"Minnesota Vikings", "NFC North"⟩),
   ("NE", ⟨"New England Patriots", "AFC East"⟩),
   ("NO", ⟨"New Orleans Saints", "NFC South"⟩),
   ("NYG", ⟨"New York Giants", "NFC East"⟩),
   ("NYJ", ⟨"New York Jets", "AFC East"⟩),
   ("PHI", ⟨"Philadelphia Eagles", "NFC East"⟩),
   ("PIT", ⟨"Pittsburgh Steelers", "AFC North"⟩),
   ("SEA", ⟨"Seattle Seahawks", "NFC West"⟩),
   ("SF", ⟨"San Francisco 49ers", "NFC West"⟩),
   ("TB", ⟨"Tampa Bay Buccaneers", "NFC South"⟩),
   ("TEN", ⟨"Tennessee Titans", "AFC South"⟩),
   ("WAS", ⟨"Washington Commanders", "NFC East"⟩)]

/-- `TEAM_NAME_MAPPINGS` from config.py (data abbreviation → config
abbreviation). -/
def TEAM_NAME_MAPPINGS : List (String × String) :=
  [("OAK", "LV"), ("SD", "LAC"), ("STL", "LAR"), ("PHO", "ARI"),
   ("RAI", "LV"), ("RAM", "LAR"), ("LA", "LAR")]

/-- `REVERSE_TEAM_MAPPINGS` from config.py (config abbreviation → data
abbreviation variants). -/
def REVERSE_TEAM_MAPPINGS : List (String × List String) :=
  [("LV", ["LV", "OAK", "RAI"]),
   ("LAC", ["LAC", "SD"]),
   ("LAR", ["LAR", "LA", "STL", "RAM"]),
   ("ARI", ["ARI", "PHO"])]

/-- `POSITION_GROUPS` from config.py. -/
def POSITION_GROUPS : List (String × List String) :=
  [("QB", ["QB"]),
   ("RB", ["RB", "FB"]),
   ("WR", ["WR"]),
   ("TE", ["TE"]),
   ("OL", ["OT", "OG", "C", "T", "G"]),
   ("DL", ["DE", "DT", "NT"]),
   ("LB", ["LB", "OLB", "ILB", "MLB", "EDGE"]),
   ("DB", ["CB", "S", "FS", "SS", "DB"]),
   ("K", ["K"]),
   ("P", ["P"])]

/-- `POSITION_GROUPS.get(pos, [pos])`. -/
def positionGroup (p : String) : List String :=
  (POSITION_GROUPS.lookup p).getD [p]

/-- `STAT_QUALIFIERS` from config.py: the full qualifier catalog. -/
def STAT_QUALIFIERS : List (String × QualifierInfo) :=
  [("fantasy_top_5_qb",
    {display := "Top 5 Fantasy QB", qtype := "fantasy_rank",
     position := some "QB", rank_column := "fantasy_points",
     max_rank := some 5,
     eligible_stat_types := ["PASSING", "RUSHING", "FANTASY"]}),
   ("fantasy_top_10_qb",
    {display := "Top 10 Fantasy QB", qtype := "fantasy_rank",
     position := some "QB", rank_column := "fantasy_points",
     max_rank := some 10,
     eligible_stat_types := ["PASSING", "RUSHING", "FANTASY"]}),
   ("fantasy_outside_top_10_qb",
    {display := "Outside Top 10 Fantasy QB", qtype := "fantasy_rank",
     position := some "QB", rank_column := "fantasy_points",
     min_rank := some 11,
     eligible_stat_types := ["PASSING", "RUSHING", "FANTASY"]}),
   ("fantasy_top_5_rb",
    {display := "Top 5 Fantasy RB", qtype := "fantasy_rank",
     position := some "RB", rank_column := "fantasy_points_ppr",
     max_rank := some 5,
     eligible_stat_types := ["RUSHING", "RECEIVING", "FANTASY"]}),
   ("fantasy_top_10_rb",
    {display := "Top 10 Fantasy RB", qtype := "fantasy_rank",
     position := some "RB", rank_column := "fantasy_points_ppr",
     max_rank := some 10,
     eligible_stat_types := ["RUSHING", "RECEIVING", "FANTASY"]}),
   ("fantasy_outside_top_10_rb",
    {display := "Outside Top 10 Fantasy RB", qtype := "fantasy_rank",
     position := some "RB", rank_column := "fantasy_points_ppr",
     min_rank := some 11,
     eligible_stat_types := ["RUSHING", "RECEIVING", "FANTASY"]}),
   ("fantasy_top_5_wr",
    {display := "Top 5 Fantasy WR", qtype := "fantasy_rank",
     position := some "WR", rank_column := "fantasy_points_ppr",
     max_rank := some 5,
     eligible_stat_types := ["RECEIVING", "FANTASY"]}),
   ("fantasy_top_10_wr",
    {display := "Top 10 Fantasy WR", qtype := "fantasy_rank",
     position := some "WR", rank_column := "fantasy_points_ppr",
     max_rank := some 10,
     eligible_stat_types := ["RECEIVING", "FANTASY"]}),
   ("fantasy_outside_top_10_wr",
    {display := "Outside Top 10 Fantasy WR", qtype := "fantasy_rank",
     position := some "WR", rank_column := "fantasy_points_ppr",
     min_rank := some 11,
     eligible_stat_types := ["RECEIVING", "FANTASY"]}),
   ("fantasy_top_5_te",
    {display := "Top 5 Fantasy TE", qtype := "fantasy_rank",
     position := some "TE", rank_column := "fantasy_points_ppr",
     max_rank := some 5,
     eligible_stat_types := ["RECEIVING", "FANTASY"]}),
   ("fantasy_top_10_te",
    {display := "Top 10 Fantasy TE", qtype := "fantasy_rank",
     position := some "TE", rank_column := "fantasy_points_ppr",
     max_rank := some 10,
     eligible_stat_types := ["RECEIVING", "FANTASY"]}),
   ("qb_300_rush_yards",
    {display := "300+ Rush Yards", qtype := "threshold",
     column := some "rushing_yards", operator := ">=", value := 300,
     eligible_positions := ["QB"], eligible_stat_types := ["PASSING"]}),
   ("qb_500_rush_yards",
    {display := "500+ Rush Yards", qtype := "threshold",
     column := some "rushing_yards", operator := ">=", value := 500,
     eligible_positions := ["QB"], eligible_stat_types := ["PASSING"]}),
   ("qb_5_rush_tds",
    {display := "5+ Rush TDs", qtype := "threshold",
     column := some "rushing_tds", operator := ">=", value := 5,
     eligible_positions := ["QB"], eligible_stat_types := ["PASSING"]}),
   ("qb_under_10_int",
    {display := "Under 10 INTs", qtype := "threshold",
     column := some "interceptions_thrown", operator := "<", value := 10,
     eligible_positions := ["QB"], eligible_stat_types := ["PASSING"]}),
   ("qb_4000_pass_yards",
    {display := "4000+ Pass Yards", qtype := "threshold",
     column := some "passing_yards", operator := ">=", value := 4000,
     eligible_positions := ["QB"], eligible_stat_types := ["PASSING"]}),
   ("qb_30_pass_tds",
    {display := "30+ Pass TDs", qtype := "threshold",
     column := some "passing_tds", operator := ">=", value := 30,
     eligible_positions := ["QB"], eligible_stat_types := ["PASSING"]}),
   ("rb_1000_rush_yards",
    {display := "1000+ Rush Yards", qtype := "threshold",
     column := some "rushing_yards", operator := ">=", value := 1000,
     eligible_positions := ["RB", "FB"],
     eligible_stat_types := ["RUSHING"]}),
   ("rb_50_receptions",
    {display := "50+ Receptions", qtype := "threshold",
     column := some "receptions", operator := ">=", value := 50,
     eligible_positions := ["RB", "FB"],
     eligible_stat_types := ["RUSHING", "RECEIVING"]}),
   ("rb_10_rush_tds",
    {display := "10+ Rush TDs", qtype := "threshold",
     column := some "rushing_tds", operator := ">=", value := 10,
     eligible_positions := ["RB", "FB"],
     eligible_stat_types := ["RUSHING"]}),
   ("rb_under_500_rush_yards",
    {display := "Under 500 Rush Yards", qtype := "threshold",
     column := some "rushing_yards", operator := "<", value := 500,
     eligible_positions := ["RB", "FB"],
     eligible_stat_types := ["RECEIVING"]}),
   ("wr_1000_rec_yards",
    {display := "1000+ Rec Yards", qtype := "threshold",
     column := some "receiving_yards", operator := ">=", value := 1000,
     eligible_positions := ["WR", "TE"],
     eligible_stat_types := ["RECEIVING"]}),
   ("wr_100_receptions",
    {display := "100+ Receptions", qtype := "threshold",
     column := some "receptions", operator := ">=", value := 100,
     eligible_positions := ["WR", "TE"],
     eligible_stat_types := ["RECEIVING"]}),
   ("wr_10_rec_tds",
    {display := "10+ Rec TDs", qtype := "threshold",
     column := some "receiving_tds", operator := ">=", value := 10,
     eligible_positions := ["WR", "TE"],
     eligible_stat_types := ["RECEIVING"]}),
   ("wr_under_50_receptions",
    {display := "Under 50 Receptions", qtype := "threshold",
     column := some "receptions", operator := "<", value := 50,
     eligible_positions := ["WR", "TE"],
     eligible_stat_types := ["RECEIVING"]}),
   ("any_200_fantasy_pts",
    {display := "200+ Fantasy Pts", qtype := "threshold",
     column := some "fantasy_points", operator := ">=", value := 200,
     eligible_positions := ["QB", "RB", "WR", "TE", "FB"],
     eligible_stat_types := ["PASSING", "RUSHING", "RECEIVING", "FANTASY"]}),
   ("any_300_fantasy_pts",
    {display := "300+ Fantasy Pts", qtype := "threshold",
     column := some "fantasy_points", operator := ">=", value := 300,
     eligible_positions := ["QB", "RB", "WR", "TE", "FB"],
     eligible_stat_types := ["PASSING", "RUSHING", "RECEIVING", "FANTASY"]})]

/-! ## validator.py: team helpers and qualifier engine -/

/-- `get_team_variants` (validator.py lines 18-22). -/
def get_team_variants (team_abbr : String) : List String :=
  (REVERSE_TEAM_MAPPINGS.lookup team_abbr).getD [team_abbr]

/-- `normalize_team` (validator.py lines 25-29). -/
def normalize_team (team_abbr : String) : String :=
  (TEAM_NAME_MAPPINGS.lookup team_abbr).getD team_abbr

/-- Key used by every `DataFrame.sort(stat, descending=True)` call: the
row's value in the column, a null reading as 0 (pool rows are always
non-null in the sorted column when this matters). -/
def statValD (stat : String) (r : PlayerRow) : ℚ := ((r.stat stat).getD 0)

/-- Descending order on the stat column. -/
def statGE (stat : String) (a b : PlayerRow) : Prop :=
  statValD stat b ≤ statValD stat a

instance (stat : String) : DecidableRel (statGE stat) := fun a b =>
  inferInstanceAs (Decidable (statValD stat b ≤ statValD stat a))

instance (stat : String) : IsTotal PlayerRow (statGE stat) :=
  ⟨fun a b => le_total (statValD stat b) (statValD stat a)⟩

instance (stat : String) : IsTrans PlayerRow (statGE stat) :=
  ⟨fun _ _ _ h1 h2 => le_trans h2 h1⟩

/-- `DataFrame.sort(stat, descending=True)`. -/
def sortByStatDesc (stat : String) (l : List PlayerRow) : List PlayerRow :=
  l.insertionSort (statGE stat)

/-- Python `round` (banker's rounding) on an idealized rational. -/
def pyRoundHalfEven (q : ℚ) : ℤ :=
  let f : ℤ := q.num.fdiv q.den
  let frac : ℚ := q - (f : ℚ)
  if frac < 1/2 then f
  else if 1/2 < frac then f + 1
  else if f % 2 = 0 then f else f + 1

/-- Python `round(q, 1)`. -/
def round1 (q : ℚ) : ℚ := (pyRoundHalfEven (10 * q) : ℚ) / 10

/-- Python `f"{q:.0f}"` (used only inside reason strings). -/
def fmtF0 (q : ℚ) : String := toString (pyRoundHalfEven q)

/-- `check_threshold_qualifier` (validator.py lines 32-66). -/
def check_threshold_qualifier (player_row : PlayerRow)
    (qualifier_info : QualifierInfo) : Bool × String :=
  let column := qualifier_info.column
  let op := qualifier_info.operator
  let value := qualifier_info.value
  let display := qualifier_info.display
  let colStr := column.getD "None"
  match (match column with | some c => player_row.stat c | none => none) with
  | none => (false, "No " ++ colStr ++ " data available")
  | some player_value =>
    let meets : Bool :=
      if op = ">=" then decide (value ≤ player_value)
      else if op = ">" then decide (value < player_value)
      else if op = "<=" then decide (player_value ≤ value)
      else if op = "<" then decide (player_value < value)
      else if op = "==" then decide (player_value = value)
      else decide (value ≤ player_value)
    if meets then (true, "")
    else (false, "Does not meet " ++ display ++ " requirement (" ++
      fmtF0 player_value ++ " " ++ colStr ++ ")")

/-- 1-based position of the first row whose lowercased player name equals
`nameLower` (the `enumerate(..., 1)` loop of validator.py lines 102-106). -/
def findRank (nameLower : String) : List PlayerRow → ℤ → Option ℤ
  | [], _ => none
  | r :: t, i =>
    if strLower r.player = nameLower then some i else findRank nameLower t (i + 1)

/-- `check_fantasy_rank_qualifier` (validator.py lines 69-119). -/
def check_fantasy_rank_qualifier (df : List PlayerRow) (player_row : PlayerRow)
    (qualifier_info : QualifierInfo) (year : ℤ) : Bool × String :=
  let position := qualifier_info.position
  let rank_column := qualifier_info.rank_column
  let max_rank := qualifier_info.max_rank
  let min_rank := qualifier_info.min_rank
  let player_name := player_row.player
  let posStr := position.getD "None"
  let position_players := sortByStatDesc rank_column (df.filter (fun r =>
    decide (r.season = year) &&
    (match position with | some p => decide (r.position = p) | none => false) &&
    (match r.stat rank_column with | some x => decide (0 < x) | none => false)))
  if position_players.isEmpty then
    (false, "No " ++ posStr ++ " data for " ++ toString year)
  else
    match findRank (strLower player_name) position_players 1 with
    | none =>
      (false, player_name ++ " was not ranked as a " ++ posStr ++ " in " ++
        toString year)
    | some player_rank =>
      let minCheck : Bool × String :=
        match min_rank with
        | some mn =>
          if player_rank < mn then
            (false, player_name ++ " was #" ++ toString player_rank ++
              " fantasy " ++ posStr ++ " in " ++ toString year ++
              " (need outside Top " ++ toString (mn - 1) ++ ")")
          else (true, "")
        | none => (true, "")
      match max_rank with
      | some mr =>
        if mr < player_rank then
          (false, player_name ++ " was #" ++ toString player_rank ++
            " fantasy " ++ posStr ++ " in " ++ toString year ++
            " (need Top " ++ toString mr ++ ")")
        else minCheck
      | none => minCheck

/-- Body of `validate_qualifier` (validator.py lines 122-145), with the
global `STAT_QUALIFIERS` catalog generalized to a parameter. -/
def validate_qualifier_cat (catalog : String → Option QualifierInfo)
    (df : List PlayerRow) (player_row : PlayerRow) (qualifier_key : String)
    (year : ℤ) : Bool × String :=
  match catalog qualifier_key with
  | none => (true, "")
  | some qualifier_info =>
    if qualifier_info.qtype = "threshold" then
      check_threshold_qualifier player_row qualifier_info
    else if qualifier_info.qtype = "fantasy_rank" then
      check_fantasy_rank_qualifier df player_row qualifier_info year
    else (true, "")

/-- `validate_qualifier` (validator.py lines 122-145), reading the real
`STAT_QUALIFIERS` catalog. -/
def validate_qualifier (df : List PlayerRow) (player_row : PlayerRow)
    (qualifier_key : String) (year : ℤ) : Bool × String :=
  validate_qualifier_cat (fun k => STAT_QUALIFIERS.lookup k) df player_row
    qualifier_key year

/-! ## validator.py: get_all_valid_players (the CriteriaFilter) -/

/-- The stat-existence predicate: `is_not_null() & (> 0)`. -/
def statPos (stat : String) (r : PlayerRow) : Bool :=
  match r.stat stat with
  | some x => decide (0 < x)
  | none => false

/-- One optional criteria filter: Python's
`if criteria.get(k): result = result.filter(...)`. -/
def optFilter (o : Option β) (f : β → PlayerRow → Bool)
    (l : List PlayerRow) : List PlayerRow :=
  match o with
  | some b => l.filter (f b)
  | none => l

/-- Teams whose `NFL_TEAMS` division equals `d` (validator.py lines
452-453). -/
def teamsInDivision (d : String) : List String :=
  (NFL_TEAMS.filter (fun kv => kv.2.division = d)).map (fun kv => kv.1)

/-- Teams whose `NFL_TEAMS` division contains the conference token
(validator.py lines 457-458). -/
def teamsInConference (c : String) : List String :=
  (NFL_TEAMS.filter (fun kv => strContainsSub kv.2.division c)).map
    (fun kv => kv.1)

/-- The non-qualifier filter chain of `get_all_valid_players`
(validator.py lines 428-459): stat existence, year bounds, team equality,
position group, division, conference, applied in source order. -/
def critFilter (t : StatsTable) (stat : String) (crit : RowCriteria) :
    List PlayerRow :=
  let r1 := t.rows.filter (statPos stat)
  let r2 := optFilter crit.year_start (fun ys r => decide (ys ≤ r.season)) r1
  let r3 := optFilter crit.year_end (fun ye r => decide (r.season ≤ ye)) r2
  let r4 := optFilter crit.team (fun tm r => decide (r.team = tm)) r3
  let r5 := optFilter crit.position
    (fun p r => decide (r.position ∈ positionGroup p)) r4
  let r6 := optFilter crit.division
    (fun d r => decide (r.team ∈ teamsInDivision d)) r5
  optFilter crit.conference
    (fun c r => decide (r.team ∈ teamsInConference c)) r6

/-- `get_all_valid_players` (validator.py lines 420-477). -/
def get_all_valid_players (t : StatsTable) (stat : String)
    (crit : RowCriteria) : List PlayerRow :=
  if stat ∈ t.cols then
    let r7 := critFilter t stat crit
    match crit.qualifier with
    | some k =>
      let kept := r7.filter (fun r => (validate_qualifier t.rows r k r.season).1)
      if kept.isEmpty then [] else sortByStatDesc stat kept
    | none => sortByStatDesc stat r7
  else []

/-! ## validator.py: validate_player_submission -/

/-- The two-stage name match of validator.py lines 171-181: substring
match on the lowercased name for the given season, falling back to exact
lowercased equality. -/
def playerMatches (t : StatsTable) (nameLower : String) (year : ℤ) :
    List PlayerRow :=
  let m1 := t.rows.filter (fun r =>
    strContainsSub (strLower r.player) nameLower && decide (r.season = year))
  if m1.isEmpty then
    t.rows.filter (fun r =>
      strLower r.player = nameLower && decide (r.season = year))
  else m1

/-- The stat-descending resolution sort of validator.py lines 187-188
(applied only when the stat column exists). -/
def resolvedMatches (t : StatsTable) (nameLower : String) (year : ℤ)
    (stat : String) : List PlayerRow :=
  let ms := playerMatches t nameLower year
  if stat ∈ t.cols then sortByStatDesc stat ms else ms

/-- `NFL_TEAMS.get(team, {}).get('name', team)`. -/
def teamDisplayName (tm : String) : String :=
  ((NFL_TEAMS.lookup tm).map (fun info => info.name)).getD tm

/-- The sequential criteria checks of validator.py lines 200-244 applied
to the already-resolved record, returning the first failure message. -/
def criteriaCheckErr (df : List PlayerRow) (pname : String) (year : ℤ)
    (crit : RowCriteria) (row : PlayerRow) : Option String :=
  match crit.team with
  | some tm =>
    if row.team ∈ get_team_variants tm then
      criteriaCheckErrYear df pname year crit row
    else some (pname ++ " was not on " ++ teamDisplayName tm ++ " in " ++
      toString year)
  | none => criteriaCheckErrYear df pname year crit row
where
  criteriaCheckErrYear (df : List PlayerRow) (pname : String) (year : ℤ)
      (crit : RowCriteria) (row : PlayerRow) : Option String :=
    match crit.year_start with
    | some ys =>
      if year < ys then
        some ("Year " ++ toString year ++ " is before " ++ toString ys)
      else criteriaCheckErrYearEnd df pname year crit row
    | none => criteriaCheckErrYearEnd df pname year crit row
  criteriaCheckErrYearEnd (df : List PlayerRow) (pname : String) (year : ℤ)
      (crit : RowCriteria) (row : PlayerRow) : Option String :=
    match crit.year_end with
    | some ye =>
      if ye < year then
        some ("Year " ++ toString year ++ " is after " ++ toString ye)
      else criteriaCheckErrPos df pname year crit row
    | none => criteriaCheckErrPos df pname year crit row
  criteriaCheckErrPos (df : List PlayerRow) (pname : String) (year : ℤ)
      (crit : RowCriteria) (row : PlayerRow) : Option String :=
    match crit.position with
    | some p =>
      if row.position ∈ positionGroup p then
        criteriaCheckErrDiv df pname year crit row
      else some (pname ++ " is not a " ++ p)
    | none => criteriaCheckErrDiv df pname year crit row
  criteriaCheckErrDiv (df : List PlayerRow) (pname : String) (year : ℤ)
      (crit : RowCriteria) (row : PlayerRow) : Option String :=
    match crit.division with
    | some d =>
      if ((NFL_TEAMS.lookup (normalize_team row.team)).map
          (fun info => info.division)) = some d then
        criteriaCheckErrConf df pname year crit row
      else some (pname ++ "'s team was not in " ++ d ++ " in " ++
        toString year)
    | none => criteriaCheckErrConf df pname year crit row
  criteriaCheckErrConf (df : List PlayerRow) (pname : String) (year : ℤ)
      (crit : RowCriteria) (row : PlayerRow) : Option String :=
    match crit.conference with
    | some c =>
      if strContainsSub
          (((NFL_TEAMS.lookup (normalize_team row.team)).map
            (fun info => info.division)).getD "") c then
        criteriaCheckErrQual df pname year crit row
      else some (pname ++ "'s team was not in " ++ c ++ " in " ++
        toString year)
    | none => criteriaCheckErrQual df pname year crit row
  criteriaCheckErrQual (df : List PlayerRow) (_pname : String) (year : ℤ)
      (crit : RowCriteria) (row : PlayerRow) : Option String :=
    match crit.qualifier with
    | some k =>
      let res := validate_qualifier df row k year
      if res.1 then none else some res.2
    | none => none

/-- The `qualifier_value` extraction of validator.py lines 246-250. -/
def qualifierValue (t : StatsTable) (crit : RowCriteria) (row : PlayerRow) :
    Option ℚ :=
  match crit.qualifier with
  | some k =>
    match (STAT_QUALIFIERS.lookup k).bind (fun info => info.column) with
    | some c => if c ∈ t.cols then row.stat c else none
    | none => none
  | none => none

/-- validator.py lines 192-265: the stat null / non-positive checks, the
sequential criteria checks, and the final `player_data` construction, for
the already-resolved record. -/
def checkResolved (t : StatsTable) (pname : String) (year : ℤ)
    (stat : String) (crit : RowCriteria) (row : PlayerRow) :
    Bool × Option PlayerData × String :=
  match row.stat stat with
  | none =>
    (false, none, "No " ++ stat ++ " data for " ++ pname ++ " in " ++
      toString year)
  | some stat_value =>
    if stat_value ≤ 0 then
      (false, none, pname ++ " has no " ++ stat ++ " in " ++ toString year)
    else
      match criteriaCheckErr t.rows pname year crit row with
      | some msg => (false, none, msg)
      | none =>
        (true, some
          {player := row.player, season := year, team := row.team,
           position := row.position, stat_value := stat_value,
           player_id := row.player_id, espn_id := row.espn_id,
           headshot_url := row.headshot_url,
           qualifier_value := qualifierValue t crit row}, "")

/-- `validate_player_submission` (validator.py lines 148-265). -/
def validate_player_submission (t : StatsTable) (player_name : String)
    (year : ℤ) (stat : String) (crit : RowCriteria) :
    Bool × Option PlayerData × String :=
  let pname := strTrim player_name
  let nameLower := strLower pname
  let ms := playerMatches t nameLower year
  if ms.isEmpty then
    (false, none, "Player '" ++ pname ++ "' not found for year " ++
      toString year)
  else
    match resolvedMatches t nameLower year stat with
    | [] =>
      (false, none, "Player '" ++ pname ++ "' not found for year " ++
        toString year)
    | row :: _ => checkResolved t pname year stat crit row

/-! ## scorer.py -/

/-- `(all_values <= v).sum()`: nulls compare to null and are not counted. -/
def countLe (vals : List (Option ℚ)) (v : ℚ) : ℕ :=
  (vals.filter (fun o =>
    match o with | some x => decide (x ≤ v) | none => false)).length

/-- `(all_values > v).sum()`. -/
def countGt (vals : List (Option ℚ)) (v : ℚ) : ℕ :=
  (vals.filter (fun o =>
    match o with | some x => decide (v < x) | none => false)).length

/-- `calculate_percentile` (scorer.py lines 16-37). -/
def calculate_percentile (stat_value : ℚ) (all_values : List (Option ℚ)) : ℚ :=
  if all_values.length = 0 then 0
  else round1 (((countLe all_values stat_value : ℚ) /
    (all_values.length : ℚ)) * 100)

/-- `get_tier` (scorer.py lines 40-59). -/
def get_tier (percentile : ℚ) : String :=
  if tierThreshold "diamond" ≤ percentile then "diamond"
  else if tierThreshold "gold" ≤ percentile then "gold"
  else if tierThreshold "silver" ≤ percentile then "silver"
  else if tierThreshold "bronze" ≤ percentile then "bronze"
  else "iron"

/-- `get_tier_color` (scorer.py lines 62-64). -/
def get_tier_color (tier : String) : String :=
  (TIER_COLORS.lookup tier).getD ((TIER_COLORS.lookup "iron").getD "")

/-- `get_tier_emoji` (scorer.py lines 67-69). -/
def get_tier_emoji (tier : String) : String :=
  (TIER_EMOJIS.lookup tier).getD ((TIER_EMOJIS.lookup "iron").getD "")

/-- `score_submission` (scorer.py lines 72-124). -/
def score_submission (t : StatsTable) (player_data : PlayerData)
    (stat : String) (crit : RowCriteria) : ScoreResult :=
  let stat_value := player_data.stat_value
  let valid_players := get_all_valid_players t stat crit
  if valid_players.isEmpty then
    {score := stat_value, percentile := 100, tier := "diamond",
     tier_color := get_tier_color "diamond",
     tier_emoji := get_tier_emoji "diamond", rank := 1, total_valid := 1}
  else
    let all_values := valid_players.map (fun r => r.stat stat)
    let percentile := calculate_percentile stat_value all_values
    let tier := get_tier percentile
    let rank : ℤ := (countGt all_values stat_value : ℤ) + 1
    {score := stat_value, percentile := percentile, tier := tier,
     tier_color := get_tier_color tier, tier_emoji := get_tier_emoji tier,
     rank := rank, total_valid := valid_players.length}

/-! ## puzzle_generator.py: the override store -/

/-- The JSON override file: a mapping from ISO date string to puzzle. -/
def Store := List (String × Puzzle)

/-- `save_override` (puzzle_generator.py lines 282-287): store the config
under the date key, replacing any previous entry. -/
def save_override (store : Store) (d : String) (puzzle_config : Puzzle) :
    Store :=
  (d, puzzle_config) :: List.filter (fun kv => !(kv.1 = d : Bool)) store

/-- `get_override` (puzzle_generator.py lines 290-293). -/
def get_override (store : Store) (d : String) : Option Puzzle :=
  List.lookup d store

/-- `get_daily_puzzle` (puzzle_generator.py lines 296-306) for the day
`d`, with the date-keyed generator `gen` standing for `generate_puzzle`. -/
def get_daily_puzzle (gen : String → Puzzle) (store : Store) (d : String) :
    Puzzle :=
  match get_override store d with
  | some override => override
  | none => gen d

/-- The starting puzzle of `update_puzzle_row` (puzzle_generator.py lines
322-328): the existing override for the date, or the freshly generated
puzzle when none exists. -/
def basePuzzle (gen : String → Puzzle) (store : Store) (d : String) :
    Puzzle :=
  match get_override store d with
  | some existing => existing
  | none => gen d

/-- `update_puzzle_row` (puzzle_generator.py lines 309-337): replace one
row of the existing override (or of the freshly generated puzzle) and
re-save the whole puzzle; returns the new store and the returned config. -/
def update_puzzle_row (gen : String → Puzzle) (store : Store) (d : String)
    (row_index : ℤ) (new_criteria : RowCriteria) : Store × Puzzle :=
  let puzzle := basePuzzle gen store d
  let puzzle' :=
    if 0 ≤ row_index ∧ row_index < (puzzle.rows.length : ℤ) then
      {puzzle with rows := puzzle.rows.set row_index.toNat new_criteria}
    else puzzle
  (save_override store d puzzle', puzzle')

/-! ## The per-field "satisfies every populated criteria field" predicate -/

/-- A record satisfies every populated field of the criteria, in the
sense enforced by `get_all_valid_players`'s filters (team is the plain
string equality the source uses; the qualifier is evaluated with the
record's own season against the full table). -/
def satisfiesCriteria (t : StatsTable) (crit : RowCriteria)
    (r : PlayerRow) : Prop :=
  (∀ ys, crit.year_start = some ys → ys ≤ r.season) ∧
  (∀ ye, crit.year_end = some ye → r.season ≤ ye) ∧
  (∀ tm, crit.team = some tm → r.team = tm) ∧
  (∀ p, crit.position = some p → r.position ∈ positionGroup p) ∧
  (∀ d, crit.division = some d → r.team ∈ teamsInDivision d) ∧
  (∀ c, crit.conference = some c → r.team ∈ teamsInConference c) ∧
  (∀ k, crit.qualifier = some k →
    (validate_qualifier t.rows r k r.season).1 = true)

/-- A criteria's qualifier, when looked up in the catalog, is not a
fantasy-rank qualifier (fantasy ranks are recomputed against the whole
table, so they are the one table-dependent filter). -/
def noFantasyRankQualifier (crit : RowCriteria) : Prop :=
  ∀ k info, crit.qualifier = some k →
    STAT_QUALIFIERS.lookup k = some info → info.qtype ≠ "fantasy_rank"

/-- Rank of a tier name, for stating monotonicity of `get_tier`. -/
def tierLevel : String → ℕ
  | "diamond" => 4
  | "gold" => 3
  | "silver" => 2
  | "bronze" => 1
  | _ => 0

/-! ## Concrete witness data -/

/-- Criteria with no populated field. -/
def crit0 : RowCriteria := {}

/-- A single valid QB season row. -/
def rowA : PlayerRow :=
  {player := "Alice", season := 2000, team := "SF", position := "QB",
   stats := [("passing_yards", some 300)]}

/-- One-row table. -/
def tableA : StatsTable := {cols := ["passing_yards"], rows := [rowA]}

/-- Empty table (no historical data at all). -/
def tableE : StatsTable := {cols := ["passing_yards"], rows := []}

/-- A validated submission carrying the value 300. -/
def pdA : PlayerData :=
  {player := "Alice", season := 2000, team := "SF", position := "QB",
   stat_value := 300}

/-- A row whose team is the historical Oakland code. -/
def rowOAK : PlayerRow :=
  {player := "Bo", season := 2000, team := "OAK", position := "QB",
   stats := [("passing_yards", some 100)]}

/-- Table containing only the Oakland-coded row. -/
def tableOAK : StatsTable := {cols := ["passing_yards"], rows := [rowOAK]}

/-- Criteria selecting the Las Vegas Raiders. -/
def critLV : RowCriteria := {team := some "LV"}

/-- Same row but carrying the modern team code. -/
def rowLV : PlayerRow :=
  {player := "Cal", season := 2000, team := "LV", position := "QB",
   stats := [("passing_yards", some 100)]}

/-- Table containing only the modern-coded row. -/
def tableLV : StatsTable := {cols := ["passing_yards"], rows := [rowLV]}

/-- A QB season-2000 row with the given team, fantasy points, and
passing yards. -/
def qbRow (nm : String) (tm : String) (fpts : ℚ) (py : Option ℚ) :
    PlayerRow :=
  {player := nm, season := 2000, team := tm, position := "QB",
   stats := [("passing_yards", py), ("fantasy_points", some fpts)]}

/-- Six QBs in season 2000: the fantasy leader plays for KC, the last
ranked one for SF (the only one with recorded passing yards). -/
def tableQB : StatsTable :=
  {cols := ["passing_yards", "fantasy_points"],
   rows := [qbRow "q1" "KC" 60 none, qbRow "q2" "DAL" 50 none,
            qbRow "q3" "DAL" 40 none, qbRow "q4" "DAL" 30 none,
            qbRow "q5" "DAL" 20 none, qbRow "q6" "SF" 10 (some 100)]}

/-- SF passing-yards criteria gated on a Top-5 fantasy QB finish. -/
def critQB : RowCriteria :=
  {team := some "SF", qualifier := some "fantasy_top_5_qb"}

/-- A resolved row whose stat cell is null. -/
def rowNull : PlayerRow :=
  {player := "Cj", season := 2001, team := "SF", position := "QB",
   stats := [("passing_yards", none)]}

/-- Table containing only the null-stat row. -/
def tableNull : StatsTable := {cols := ["passing_yards"], rows := [rowNull]}

/-- A resolved row whose stat cell is present but zero. -/
def rowZero : PlayerRow :=
  {player := "Dk", season := 2002, team := "SF", position := "QB",
   stats := [("passing_yards", some 0)]}

/-- Table containing only the zero-stat row. -/
def tableZero : StatsTable := {cols := ["passing_yards"], rows := [rowZero]}

/-- Distinct criteria rows for the witness puzzle. -/
def critR (n : ℤ) : RowCriteria := {year_start := some n}

/-- A five-row puzzle used by the override witnesses. -/
def puzzle5 : Puzzle :=
  {date := "2024-01-01", stat_category := "passing_yards",
   stat_display := "PASS YDS", stat_type := "PASSING",
   stat_description := "Passing Yards",
   rows := [critR 1, critR 2, critR 3, critR 4, critR 5]}

/-- A generator that always produces the witness puzzle. -/
def gen0 : String → Puzzle := fun _ => puzzle5

/-- Replacement criteria for the row-update witnesses. -/
def newCrit : RowCriteria := {team := some "SF"}

/-- A bare player row for the qualifier witnesses. -/
def rec0 : PlayerRow := {player := "", season := 0, team := "", position := ""}

/-- A catalog with one entry whose type is the declared-but-unhandled
`career` kind (neither `threshold` nor `fantasy_rank`). -/
def oddCatalog : String → Option QualifierInfo :=
  fun k => if k = "career_marker" then some {qtype := "career"} else none

/-- The unsorted contents of `get_all_valid_players` (used to reason
about the pool up to the final sort). -/
def poolFiltered (t : StatsTable) (stat : String) (crit : RowCriteria) :
    List PlayerRow :=
  if stat ∈ t.cols then
    match crit.qualifier with
    | some k =>
      (critFilter t stat crit).filter
        (fun r => (validate_qualifier t.rows r k r.season).1)
    | none => critFilter t stat crit
  else []

/-! ## Helper lemmas -/

theorem mem_sortByStatDesc {stat : String} {l : List PlayerRow}
    {a : PlayerRow} : a ∈ sortByStatDesc stat l ↔ a ∈ l :=
  (List.perm_insertionSort (statGE stat) l).mem_iff

theorem length_sortByStatDesc (stat : String) (l : List PlayerRow) :
    (sortByStatDesc stat l).length = l.length :=
  (List.perm_insertionSort (statGE stat) l).length_eq

theorem sorted_sortByStatDesc (stat : String) (l : List PlayerRow) :
    List.Sorted (statGE stat) (sortByStatDesc stat l) :=
  List.sorted_insertionSort (statGE stat) l

theorem mem_optFilter {o : Option β} {f : β → PlayerRow → Bool}
    {l : List PlayerRow} {r : PlayerRow} :
    r ∈ optFilter o f l ↔ r ∈ l ∧ ∀ b, o = some b → f b r = true := by
  cases o with
  | none => simp [optFilter]
  | some b => simp [optFilter, List.mem_filter]

theorem optFilter_sublist {o : Option β} {f : β → PlayerRow → Bool}
    {l₁ l₂ : List PlayerRow} (h : l₁.Sublist l₂) :
    (optFilter o f l₁).Sublist (optFilter o f l₂) := by
  cases o with
  | none => exact h
  | some b => exact h.filter (f b)

theorem pool_perm (t : StatsTable) (stat : String) (crit : RowCriteria) :
    (get_all_valid_players t stat crit).Perm (poolFiltered t stat crit) := by
  unfold get_all_valid_players poolFiltered
  by_cases hc : stat ∈ t.cols
  · rw [if_pos hc, if_pos hc]
    cases hq : crit.qualifier with
    | none => exact List.perm_insertionSort _ _
    | some k =>
      dsimp only
      by_cases hk : ((critFilter t stat crit).filter
          (fun r => (validate_qualifier t.rows r k r.season).1)).isEmpty
      · rw [if_pos hk, List.isEmpty_iff.mp hk]
      · rw [if_neg hk]
        exact List.perm_insertionSort _ _
  · rw [if_neg hc, if_neg hc]

theorem statPos_iff {stat : String} {r : PlayerRow} :
    statPos stat r = true ↔ ∃ x, r.stat stat = some x ∧ 0 < x := by
  unfold statPos
  cases h : r.stat stat <;> simp

theorem mem_critFilter {t : StatsTable} {stat : String} {crit : RowCriteria}
    {r : PlayerRow} :
    r ∈ critFilter t stat crit ↔
      r ∈ t.rows ∧ statPos stat r = true ∧
      (∀ ys, crit.year_start = some ys → ys ≤ r.season) ∧
      (∀ ye, crit.year_end = some ye → r.season ≤ ye) ∧
      (∀ tm, crit.team = some tm → r.team = tm) ∧
      (∀ p, crit.position = some p → r.position ∈ positionGroup p) ∧
      (∀ d, crit.division = some d → r.team ∈ teamsInDivision d) ∧
      (∀ c, crit.conference = some c → r.team ∈ teamsInConference c) := by
  unfold critFilter
  simp only [mem_optFilter, List.mem_filter, decide_eq_true_eq]
  tauto

theorem mem_pool_iff {t : StatsTable} {stat : String} {crit : RowCriteria}
    {r : PlayerRow} :
    r ∈ get_all_valid_players t stat crit ↔
      stat ∈ t.cols ∧ r ∈ critFilter t stat crit ∧
      (∀ k, crit.qualifier = some k →
        (validate_qualifier t.rows r k r.season).1 = true) := by
  rw [(pool_perm t stat crit).mem_iff]
  unfold poolFiltered
  by_cases hc : stat ∈ t.cols
  · rw [if_pos hc]
    cases hq : crit.qualifier with
    | none => simp [hc, hq]
    | some k => simp [hc, hq, List.mem_filter]
  · simp [hc]

theorem pool_sorted (t : StatsTable) (stat : String) (crit : RowCriteria) :
    List.Sorted (statGE stat) (get_all_valid_players t stat crit) := by
  unfold get_all_valid_players
  by_cases hc : stat ∈ t.cols
  · rw [if_pos hc]
    cases hq : crit.qualifier with
    | none => exact sorted_sortByStatDesc _ _
    | some k =>
      dsimp only
      by_cases hk : ((critFilter t stat crit).filter
          (fun r => (validate_qualifier t.rows r k r.season).1)).isEmpty
      · rw [if_pos hk]; exact List.sorted_nil
      · rw [if_neg hk]; exact sorted_sortByStatDesc _ _
  · rw [if_neg hc]; exact List.sorted_nil

theorem validate_qualifier_df_irrel {k : String}
    (hnf : ∀ info, STAT_QUALIFIERS.lookup k = some info →
      info.qtype ≠ "fantasy_rank")
    (df df' : List PlayerRow) (row : PlayerRow) (year : ℤ) :
    validate_qualifier df row k year = validate_qualifier df' row k year := by
  unfold validate_qualifier validate_qualifier_cat
  dsimp only
  cases h : STAT_QUALIFIERS.lookup k with
  | none => rfl
  | some info =>
    dsimp only
    by_cases h1 : info.qtype = "threshold"
    · rw [if_pos h1, if_pos h1]
    · rw [if_neg h1, if_neg h1]
      have h2 : info.qtype ≠ "fantasy_rank" := hnf info h
      rw [if_neg h2, if_neg h2]

theorem critFilter_sublist {cols : List String} {rows' rows : List PlayerRow}
    (stat : String) (crit : RowCriteria) (hsub : rows'.Sublist rows) :
    (critFilter ⟨cols, rows'⟩ stat crit).Sublist
      (critFilter ⟨cols, rows⟩ stat crit) := by
  unfold critFilter
  exact optFilter_sublist (optFilter_sublist (optFilter_sublist
    (optFilter_sublist (optFilter_sublist (optFilter_sublist
      (hsub.filter (statPos stat)))))))

theorem pool_length_perm (t : StatsTable) (stat : String)
    (crit : RowCriteria) :
    (get_all_valid_players t stat crit).length =
      (poolFiltered t stat crit).length :=
  (pool_perm t stat crit).length_eq

theorem pool_length_mono {cols : List String} {rows' rows : List PlayerRow}
    (stat : String) (crit : RowCriteria) (hsub : rows'.Sublist rows)
    (hnf : noFantasyRankQualifier crit) :
    (get_all_valid_players ⟨cols, rows'⟩ stat crit).length ≤
      (get_all_valid_players ⟨cols, rows⟩ stat crit).length := by
  rw [pool_length_perm, pool_length_perm]
  unfold poolFiltered
  by_cases hc : stat ∈ cols
  · simp only [if_pos hc]
    cases hq : crit.qualifier with
    | none =>
      exact (critFilter_sublist stat crit hsub).length_le
    | some k =>
      dsimp only
      have hirrel : ∀ r : PlayerRow,
          (validate_qualifier rows' r k r.season).1 =
          (validate_qualifier rows r k r.season).1 := by
        intro r
        rw [validate_qualifier_df_irrel (fun info hi => hnf k info hq hi)
          rows' rows r r.season]
      calc ((critFilter ⟨cols, rows'⟩ stat crit).filter
              (fun r => (validate_qualifier rows' r k r.season).1)).length
          = ((critFilter ⟨cols, rows'⟩ stat crit).filter
              (fun r => (validate_qualifier rows r k r.season).1)).length := by
            rw [List.filter_congr (fun a _ => hirrel a)]
        _ ≤ ((critFilter ⟨cols, rows⟩ stat crit).filter
              (fun r => (validate_qualifier rows r k r.season).1)).length :=
            ((critFilter_sublist stat crit hsub).filter _).length_le
  · simp [if_neg hc]

theorem pyRHE_1000 : pyRoundHalfEven 1000 = 1000 := by
  unfold pyRoundHalfEven
  have h1 : (1000 : ℚ).num.fdiv (1000 : ℚ).den = 1000 := by decide
  rw [h1]
  norm_num

theorem round1_hundred : round1 100 = 100 := by
  unfold round1
  have h0 : (10 : ℚ) * 100 = 1000 := by norm_num
  rw [h0, pyRHE_1000]
  norm_num

theorem tierThreshold_diamond : tierThreshold "diamond" = 100 := rfl

theorem tierThreshold_gold : tierThreshold "gold" = 90 := rfl

theorem tierThreshold_silver : tierThreshold "silver" = 75 := rfl

theorem tierThreshold_bronze : tierThreshold "bronze" = 50 := rfl

theorem get_tier_100 : get_tier 100 = "diamond" := by
  unfold get_tier
  rw [if_pos (by rw [tierThreshold_diamond])]

theorem get_tier_eq_diamond {p : ℚ} (h : 100 ≤ p) : get_tier p = "diamond" := by
  unfold get_tier
  rw [if_pos (by rw [tierThreshold_diamond]; exact h)]

theorem get_tier_eq_gold {p : ℚ} (h1 : p < 100) (h2 : 90 ≤ p) :
    get_tier p = "gold" := by
  unfold get_tier
  rw [if_neg (by rw [tierThreshold_diamond]; exact not_le.mpr h1),
    if_pos (by rw [tierThreshold_gold]; exact h2)]

theorem get_tier_eq_silver {p : ℚ} (h1 : p < 90) (h2 : 75 ≤ p) :
    get_tier p = "silver" := by
  unfold get_tier
  rw [if_neg (by rw [tierThreshold_diamond]; exact not_le.mpr (by linarith)),
    if_neg (by rw [tierThreshold_gold]; exact not_le.mpr h1),
    if_pos (by rw [tierThreshold_silver]; exact h2)]

theorem get_tier_eq_bronze {p : ℚ} (h1 : p < 75) (h2 : 50 ≤ p) :
    get_tier p = "bronze" := by
  unfold get_tier
  rw [if_neg (by rw [tierThreshold_diamond]; exact not_le.mpr (by linarith)),
    if_neg (by rw [tierThreshold_gold]; exact not_le.mpr (by linarith)),
    if_neg (by rw [tierThreshold_silver]; exact not_le.mpr h1),
    if_pos (by rw [tierThreshold_bronze]; exact h2)]

theorem get_tier_eq_iron {p : ℚ} (h1 : p < 50) : get_tier p = "iron" := by
  unfold get_tier
  rw [if_neg (by rw [tierThreshold_diamond]; exact not_le.mpr (by linarith)),
    if_neg (by rw [tierThreshold_gold]; exact not_le.mpr (by linarith)),
    if_neg (by rw [tierThreshold_silver]; exact not_le.mpr (by linarith)),
    if_neg (by rw [tierThreshold_bronze]; exact not_le.mpr h1)]

theorem tier_mono (p q : ℚ) (hpq : p ≤ q) :
    tierLevel (get_tier p) ≤ tierLevel (get_tier q) := by
  unfold get_tier
  split_ifs <;> first | decide | linarith

theorem get_override_save (store : Store) (d : String) (cfg : Puzzle) :
    get_override (save_override store d cfg) d = some cfg := by
  unfold get_override save_override
  simp [List.lookup]

/-! ## Claim theorems -/

/-- C1: for every non-empty pool returned by `get_all_valid_players` and
every submission stat value, `score_submission` returns a percentile equal
to (count of pool values ≤ value) / (pool size) × 100 rounded to one
decimal, and a rank equal to (count of pool values strictly greater than
the value) + 1; when the value bounds the whole pool from above (in
particular when it equals the pool maximum) the percentile is exactly 100
and the tier is diamond. -/
theorem C1_percentile_rank_max (t : StatsTable) (stat : String)
    (crit : RowCriteria) (pd : PlayerData)
    (hne : get_all_valid_players t stat crit ≠ []) :
    ((score_submission t pd stat crit).percentile =
      round1 (((countLe ((get_all_valid_players t stat crit).map
          (fun r => r.stat stat)) pd.stat_value : ℚ) /
        ((get_all_valid_players t stat crit).length : ℚ)) * 100)) ∧
    ((score_submission t pd stat crit).rank =
      (countGt ((get_all_valid_players t stat crit).map
        (fun r => r.stat stat)) pd.stat_value : ℤ) + 1) ∧
    ((∀ x : ℚ, some x ∈ (get_all_valid_players t stat crit).map
        (fun r => r.stat stat) → x ≤ pd.stat_value) →
      (score_submission t pd stat crit).percentile = 100 ∧
      (score_submission t pd stat crit).tier = "diamond") := by
  set pool := get_all_valid_players t stat crit with hpool
  set vals := pool.map (fun r => r.stat stat) with hvals
  have hlen : vals.length = pool.length := List.length_map _ _
  have hpoolne : pool.isEmpty = false := by
    cases hp : pool with
    | nil => exact absurd hp hne
    | cons a l => rfl
  have hlenne : vals.length ≠ 0 := by
    rw [hlen]
    intro h0
    exact hne (List.length_eq_zero.mp h0)
  have hscore : score_submission t pd stat crit =
      {score := pd.stat_value,
       percentile := calculate_percentile pd.stat_value vals,
       tier := get_tier (calculate_percentile pd.stat_value vals),
       tier_color := get_tier_color (get_tier
         (calculate_percentile pd.stat_value vals)),
       tier_emoji := get_tier_emoji (get_tier
         (calculate_percentile pd.stat_value vals)),
       rank := (countGt vals pd.stat_value : ℤ) + 1,
       total_valid := pool.length} := by
    unfold score_submission
    rw [← hpool]
    simp only [hpoolne, Bool.false_eq_true, if_false]
  have hpct : calculate_percentile pd.stat_value vals =
      round1 (((countLe vals pd.stat_value : ℚ) /
        (pool.length : ℚ)) * 100) := by
    unfold calculate_percentile
    rw [if_neg hlenne, hlen]
  refine ⟨by rw [hscore]; exact hpct, by rw [hscore], ?_⟩
  intro hub
  have hall : ∀ o ∈ vals, (fun o => match o with
      | some x => decide (x ≤ pd.stat_value)
      | none => false) o = true := by
    intro o ho
    rcases List.mem_map.mp ho with ⟨r, hr, hro⟩
    rcases statPos_iff.mp (mem_critFilter.mp (mem_pool_iff.mp hr).2.1).2.1
      with ⟨x, hx, _⟩
    have hxo : o = some x := by rw [← hro, hx]
    subst hxo
    simp only [decide_eq_true_eq]
    exact hub x ho
  have hcount : countLe vals pd.stat_value = vals.length := by
    unfold countLe
    rw [List.filter_eq_self.mpr hall]
  have hpct100 : calculate_percentile pd.stat_value vals = 100 := by
    have hplne : pool.length ≠ 0 := hlen ▸ hlenne
    rw [hpct, hcount, hlen,
      div_self (Nat.cast_ne_zero.mpr hplne : ((pool.length : ℚ)) ≠ 0)]
    rw [one_mul, round1_hundred]
  constructor
  · rw [hscore]; exact hpct100
  · rw [hscore]
    show get_tier (calculate_percentile pd.stat_value vals) = "diamond"
    rw [hpct100, get_tier_100]

/-- Witness for C1 at a concrete one-row pool whose maximum the
submission attains. -/
theorem C1_percentile_rank_max_holds :
    (score_submission tableA pdA "passing_yards" crit0).percentile = 100 ∧
    (score_submission tableA pdA "passing_yards" crit0).tier = "diamond" := by
  have h := C1_percentile_rank_max tableA "passing_yards" crit0 pdA (by decide)
  refine h.2.2 ?_
  intro x hx
  have hpool : (get_all_valid_players tableA "passing_yards" crit0).map
      (fun r => r.stat "passing_yards") = [some 300] := by decide
  rw [hpool] at hx
  simp only [List.mem_singleton, Option.some.injEq] at hx
  rw [hx]
  decide

/-- C2: whenever `get_all_valid_players` returns an empty pool,
`score_submission` returns percentile 100, tier diamond, rank 1 and
total_valid 1 (the empty-pool branch returns before any division is
attempted, so no division by zero can occur). -/
theorem C2_empty_pool_score (t : StatsTable) (pd : PlayerData)
    (stat : String) (crit : RowCriteria)
    (h : get_all_valid_players t stat crit = []) :
    score_submission t pd stat crit =
      {score := pd.stat_value, percentile := 100, tier := "diamond",
       tier_color := "#3B82F6", tier_emoji := "🟦", rank := 1,
       total_valid := 1} := by
  simp only [score_submission, h]
  rfl

/-- Witness for C2 on a table with no rows at all. -/
theorem C2_empty_pool_score_holds :
    score_submission tableE pdA "passing_yards" crit0 =
      {score := pdA.stat_value, percentile := 100, tier := "diamond",
       tier_color := "#3B82F6", tier_emoji := "🟦", rank := 1,
       total_valid := 1} :=
  C2_empty_pool_score tableE pdA "passing_yards" crit0 (by decide)

/-- C3: `get_tier` is a monotonic step function of the percentile with
lower-closed boundaries: 100 ↦ diamond, 99.9 ↦ gold, 90 ↦ gold,
89.9 ↦ silver, 75 ↦ silver, 74.9 ↦ bronze, 50 ↦ bronze, 49.9 ↦ iron. -/
theorem C3_tier_step_function :
    (∀ p q : ℚ, p ≤ q → tierLevel (get_tier p) ≤ tierLevel (get_tier q)) ∧
    get_tier 100 = "diamond" ∧ get_tier (999/10) = "gold" ∧
    get_tier 90 = "gold" ∧ get_tier (899/10) = "silver" ∧
    get_tier 75 = "silver" ∧ get_tier (749/10) = "bronze" ∧
    get_tier 50 = "bronze" ∧ get_tier (499/10) = "iron" :=
  ⟨tier_mono,
   get_tier_100,
   get_tier_eq_gold (by norm_num) (by norm_num),
   get_tier_eq_gold (by norm_num) (by norm_num),
   get_tier_eq_silver (by norm_num) (by norm_num),
   get_tier_eq_silver (by norm_num) (by norm_num),
   get_tier_eq_bronze (by norm_num) (by norm_num),
   get_tier_eq_bronze (by norm_num) (by norm_num),
   get_tier_eq_iron (by norm_num)⟩

/-- Witness for C3's monotonicity at the concrete pair 3 ≤ 7. -/
theorem C3_tier_step_function_holds :
    tierLevel (get_tier 3) ≤ tierLevel (get_tier 7) :=
  C3_tier_step_function.1 3 7 (by norm_num)

/-- C4 counterexample: with the fantasy-rank qualifier
`fantasy_top_5_qb`, removing the KC fantasy leader from the table GROWS
the SF pool (from 0 to 1 records), because fantasy ranks are recomputed
against the full table; so removal does not always shrink or preserve the
result size. -/
theorem C4_pool_monotonicity_cex :
    qbRow "q1" "KC" 60 none ∈ tableQB.rows ∧
    (get_all_valid_players tableQB "passing_yards" critQB).length <
      (get_all_valid_players
        {cols := tableQB.cols,
         rows := tableQB.rows.erase (qbRow "q1" "KC" 60 none)}
        "passing_yards" critQB).length := by decide

/-- C4 (amended): every record in the `get_all_valid_players` result has
a non-null strictly positive value in the active stat category and
satisfies every populated criteria field, and the result is sorted
descending by that stat value; removing a record from the input table can
only shrink or leave unchanged the result size PROVIDED the criteria's
qualifier is not a fantasy-rank qualifier (a fantasy-rank qualifier
recomputes ranks against the full table, so removal can grow the result,
as the counterexample shows). -/
theorem C4_pool_invariants_amended (t : StatsTable) (stat : String)
    (crit : RowCriteria) :
    (∀ r ∈ get_all_valid_players t stat crit,
      ∃ x, r.stat stat = some x ∧ 0 < x) ∧
    (∀ r ∈ get_all_valid_players t stat crit, satisfiesCriteria t crit r) ∧
    List.Sorted (statGE stat) (get_all_valid_players t stat crit) ∧
    (∀ r₀ : PlayerRow, noFantasyRankQualifier crit →
      (get_all_valid_players {cols := t.cols, rows := t.rows.erase r₀}
        stat crit).length ≤ (get_all_valid_players t stat crit).length) := by
  refine ⟨?_, ?_, pool_sorted t stat crit, ?_⟩
  · intro r hr
    exact statPos_iff.mp (mem_critFilter.mp (mem_pool_iff.mp hr).2.1).2.1
  · intro r hr
    obtain ⟨hc, hcf, hq⟩ := mem_pool_iff.mp hr
    obtain ⟨_, _, h1, h2, h3, h4, h5, h6⟩ := mem_critFilter.mp hcf
    exact ⟨h1, h2, h3, h4, h5, h6, hq⟩
  · intro r₀ hnf
    exact pool_length_mono stat crit (List.erase_sublist r₀ t.rows) hnf

/-- Witness for C4 (amended): monotonicity under removal at a concrete
qualifier-free criteria. -/
theorem C4_pool_invariants_amended_holds :
    (get_all_valid_players ⟨tableA.cols, tableA.rows.erase rowA⟩
      "passing_yards" crit0).length ≤
    (get_all_valid_players tableA "passing_yards" crit0).length :=
  (C4_pool_invariants_amended tableA "passing_yards" crit0).2.2.2 rowA
    (fun _ _ hk _ => Option.noConfusion hk)

/-- C5 counterexample: `get_all_valid_players` does NOT resolve the
criteria team to its historical variants. "OAK" is a historical variant
of "LV", and the Oakland-coded record passes every other filter (its stat
is positive and the stat column exists), yet the LV pool is empty, so a
record whose team equals a historical variant of the criteria team is not
included. -/
theorem C5_team_variant_cex :
    "OAK" ∈ get_team_variants "LV" ∧
    rowOAK ∈ tableOAK.rows ∧
    "passing_yards" ∈ tableOAK.cols ∧
    statPos "passing_yards" rowOAK = true ∧
    rowOAK ∉ get_all_valid_players tableOAK "passing_yards" critLV ∧
    get_all_valid_players tableOAK "passing_yards" critLV = [] := by decide

/-- C5 (amended): for criteria with a populated team field,
`get_all_valid_players` restricts the pool by PLAIN string equality with
the criteria team (no historical-variant resolution): every pool record's
team equals the criteria team exactly, and every table record whose team
equals the criteria team exactly (and which passes all other filters) is
included in the result. -/
theorem C5_team_equality_amended (t : StatsTable) (stat : String)
    (crit : RowCriteria) (tm : String) (htm : crit.team = some tm) :
    (∀ r ∈ get_all_valid_players t stat crit, r.team = tm) ∧
    (∀ r ∈ t.rows, stat ∈ t.cols → statPos stat r = true →
      satisfiesCriteria t crit r →
      r ∈ get_all_valid_players t stat crit) := by
  constructor
  · intro r hr
    exact (mem_critFilter.mp (mem_pool_iff.mp hr).2.1).2.2.2.2.1 tm htm
  · intro r hrows hcols hsp hsat
    obtain ⟨h1, h2, h3, h4, h5, h6, h7⟩ := hsat
    exact mem_pool_iff.mpr
      ⟨hcols, mem_critFilter.mpr ⟨hrows, hsp, h1, h2, h3, h4, h5, h6⟩, h7⟩

/-- Witness for C5 (amended): the record whose team is exactly "LV" is in
the pool for the "LV" criteria. -/
theorem C5_team_equality_amended_holds :
    rowLV ∈ get_all_valid_players tableLV "passing_yards" critLV := by
  have h := C5_team_equality_amended tableLV "passing_yards" critLV "LV" rfl
  refine h.2 rowLV (by decide) (by decide) (by decide) ?_
  unfold satisfiesCriteria
  refine ⟨fun ys hy => Option.noConfusion hy, fun ye hy => Option.noConfusion hy,
    fun tm htm => ?_, fun p hp => Option.noConfusion hp,
    fun d hd => Option.noConfusion hd, fun c hc => Option.noConfusion hc,
    fun k hk => Option.noConfusion hk⟩
  have : tm = "LV" := by
    have h2 : some "LV" = some tm := htm
    exact (Option.some.injEq _ _ ▸ h2).symm
  rw [this]
  rfl

/-- C6: after `save_override d cfg`, the daily-puzzle lookup for `d`
returns `cfg` unchanged, whatever the generator `gen` would have
produced — the stored override bypasses generation entirely. -/
theorem C6_override_precedence (gen : String → Puzzle) (store : Store)
    (d : String) (cfg : Puzzle) :
    get_daily_puzzle gen (save_override store d cfg) d = cfg := by
  unfold get_daily_puzzle
  rw [get_override_save]

/-- C7: for a row index in 0..4 on a five-row puzzle, `update_puzzle_row`
changes only that row: every other row and every top-level field of the
returned (and saved) override equals the prior override for the date, or
the freshly generated puzzle if no override existed (`basePuzzle`). -/
theorem C7_row_update_isolation (gen : String → Puzzle) (store : Store)
    (d : String) (i : ℤ) (new : RowCriteria)
    (h0 : 0 ≤ i) (h5 : i < 5)
    (hlen : (basePuzzle gen store d).rows.length = 5) :
    ((update_puzzle_row gen store d i new).2.date =
      (basePuzzle gen store d).date) ∧
    ((update_puzzle_row gen store d i new).2.stat_category =
      (basePuzzle gen store d).stat_category) ∧
    ((update_puzzle_row gen store d i new).2.stat_display =
      (basePuzzle gen store d).stat_display) ∧
    ((update_puzzle_row gen store d i new).2.stat_type =
      (basePuzzle gen store d).stat_type) ∧
    ((update_puzzle_row gen store d i new).2.stat_description =
      (basePuzzle gen store d).stat_description) ∧
    ((update_puzzle_row gen store d i new).2.rows.length =
      (basePuzzle gen store d).rows.length) ∧
    (∀ j : ℕ, (j : ℤ) ≠ i →
      (update_puzzle_row gen store d i new).2.rows[j]? =
        (basePuzzle gen store d).rows[j]?) ∧
    ((update_puzzle_row gen store d i new).2.rows[i.toNat]? = some new) ∧
    (get_override (update_puzzle_row gen store d i new).1 d =
      some (update_puzzle_row gen store d i new).2) := by
  have hcond : 0 ≤ i ∧ i < ((basePuzzle gen store d).rows.length : ℤ) := by
    constructor
    · exact h0
    · rw [hlen]; exact_mod_cast h5
  have hupd : update_puzzle_row gen store d i new =
      (save_override store d
        {basePuzzle gen store d with
          rows := (basePuzzle gen store d).rows.set i.toNat new},
       {basePuzzle gen store d with
          rows := (basePuzzle gen store d).rows.set i.toNat new}) := by
    unfold update_puzzle_row
    dsimp only
    rw [if_pos hcond]
  rw [hupd]
  refine ⟨rfl, rfl, rfl, rfl, rfl, List.length_set _ _ _, ?_, ?_, ?_⟩
  · intro j hj
    have hne : i.toNat ≠ j := by
      intro hij
      apply hj
      rw [← hij, Int.toNat_of_nonneg h0]
    exact List.getElem?_set_ne hne
  · apply List.getElem?_set_self
    rw [hlen]
    omega
  · exact get_override_save _ _ _

/-- Witness for C7: updating row 2 of a concrete five-row puzzle leaves
row 1 unchanged and stores the new criteria at row 2. -/
theorem C7_row_update_isolation_holds :
    ((update_puzzle_row gen0 [] "2024-01-01" 2 newCrit).2.rows[1]? =
      (basePuzzle gen0 [] "2024-01-01").rows[1]?) ∧
    ((update_puzzle_row gen0 [] "2024-01-01" 2 newCrit).2.rows[2]? =
      some newCrit) := by
  have h := C7_row_update_isolation gen0 [] "2024-01-01" 2 newCrit
    (by norm_num) (by norm_num) (by decide)
  exact ⟨h.2.2.2.2.2.2.1 1 (by norm_num), h.2.2.2.2.2.2.2.1⟩

/-- C10: for a row index outside 0..4 on a five-row puzzle,
`update_puzzle_row` modifies no row, yet still saves the unmodified
puzzle (the existing override, or the freshly generated puzzle if none
existed) as the override for the date and returns it. -/
theorem C10_out_of_range_row_update (gen : String → Puzzle) (store : Store)
    (d : String) (i : ℤ) (new : RowCriteria)
    (hout : i < 0 ∨ 5 ≤ i)
    (hlen : (basePuzzle gen store d).rows.length = 5) :
    update_puzzle_row gen store d i new =
      (save_override store d (basePuzzle gen store d),
       basePuzzle gen store d) ∧
    get_override (update_puzzle_row gen store d i new).1 d =
      some (basePuzzle gen store d) := by
  have hcond : ¬(0 ≤ i ∧ i < ((basePuzzle gen store d).rows.length : ℤ)) := by
    rw [hlen]
    rcases hout with h | h
    · intro hc; omega
    · intro hc
      have : i < ((5 : ℕ) : ℤ) := hc.2
      omega
  have hupd : update_puzzle_row gen store d i new =
      (save_override store d (basePuzzle gen store d),
       basePuzzle gen store d) := by
    unfold update_puzzle_row
    dsimp only
    rw [if_neg hcond]
  exact ⟨hupd, by rw [hupd]; exact get_override_save _ _ _⟩

/-- Witness for C10 at the out-of-range index 7 on the concrete five-row
puzzle. -/
theorem C10_out_of_range_row_update_holds :
    update_puzzle_row gen0 [] "2024-01-01" 7 newCrit =
      (save_override [] "2024-01-01" (basePuzzle gen0 [] "2024-01-01"),
       basePuzzle gen0 [] "2024-01-01") :=
  (C10_out_of_range_row_update gen0 [] "2024-01-01" 7 newCrit
    (Or.inr (by norm_num)) (by decide)).1

/-- C8: when the record resolved by `validate_player_submission` has a
null value in the chosen stat category the submission is rejected with
the "No <stat> data" reason, and when the value is present but ≤ 0 it is
rejected with the distinct "has no <stat>" reason; in both cases no
player-data record is produced. -/
theorem C8_stat_null_or_zero_rejection (t : StatsTable) (name : String)
    (year : ℤ) (stat : String) (crit : RowCriteria) (row : PlayerRow)
    (rest : List PlayerRow)
    (hres : resolvedMatches t (strLower (strTrim name)) year stat =
      row :: rest) :
    (row.stat stat = none →
      validate_player_submission t name year stat crit =
        (false, none, "No " ++ stat ++ " data for " ++ strTrim name ++
          " in " ++ toString year)) ∧
    (∀ v : ℚ, row.stat stat = some v → v ≤ 0 →
      validate_player_submission t name year stat crit =
        (false, none, strTrim name ++ " has no " ++ stat ++ " in " ++
          toString year)) := by
  have hms : (playerMatches t (strLower (strTrim name)) year).isEmpty =
      false := by
    cases hpm : playerMatches t (strLower (strTrim name)) year with
    | nil =>
      exfalso
      unfold resolvedMatches at hres
      rw [hpm] at hres
      by_cases hc : stat ∈ t.cols
      · rw [if_pos hc] at hres
        exact List.cons_ne_nil _ _ (by rw [← hres]; rfl)
      · rw [if_neg hc] at hres
        exact List.cons_ne_nil _ _ hres.symm
    | cons a l => rfl
  have hval : validate_player_submission t name year stat crit =
      checkResolved t (strTrim name) year stat crit row := by
    unfold validate_player_submission
    simp only [hms, Bool.false_eq_true, if_false]
    rw [hres]
  constructor
  · intro hnull
    rw [hval]
    unfold checkResolved
    rw [hnull]
  · intro v hv hle
    rw [hval]
    unfold checkResolved
    rw [hv]
    dsimp only
    rw [if_pos hle]

/-- Witness for C8 on concrete one-row tables: a null stat cell produces
the "No ... data" rejection, a zero stat cell the distinct "has no ..."
rejection, and both return no player data. -/
theorem C8_stat_null_or_zero_rejection_holds :
    validate_player_submission tableNull "Cj" 2001 "passing_yards" crit0 =
      (false, none, "No passing_yards data for Cj in 2001") ∧
    validate_player_submission tableZero "Dk" 2002 "passing_yards" crit0 =
      (false, none, "Dk has no passing_yards in 2002") := by
  constructor
  · have h := (C8_stat_null_or_zero_rejection tableNull "Cj" 2001
      "passing_yards" crit0 rowNull [] (by decide)).1 rfl
    rw [h]
    decide
  · have h := (C8_stat_null_or_zero_rejection tableZero "Dk" 2002
      "passing_yards" crit0 rowZero [] (by decide)).2 0 rfl (by decide)
    rw [h]
    decide

/-- C9: `validate_qualifier` applied to a qualifier key not present in
the catalog returns a pass (true with an empty reason) rather than an
error, and the same permissive default applies to a catalog entry whose
type is neither threshold nor fantasy_rank. -/
theorem C9_unknown_qualifier_passes
    (catalog : String → Option QualifierInfo) (df : List PlayerRow)
    (row : PlayerRow) (k : String) (year : ℤ) :
    (catalog k = none →
      validate_qualifier_cat catalog df row k year = (true, "")) ∧
    (∀ info, catalog k = some info → info.qtype ≠ "threshold" →
      info.qtype ≠ "fantasy_rank" →
      validate_qualifier_cat catalog df row k year = (true, "")) ∧
    (STAT_QUALIFIERS.lookup k = none →
      validate_qualifier df row k year = (true, "")) := by
  refine ⟨?_, ?_, ?_⟩
  · intro h
    unfold validate_qualifier_cat
    rw [h]
  · intro info h h1 h2
    unfold validate_qualifier_cat
    rw [h]
    dsimp only
    rw [if_neg h1, if_neg h2]
  · intro h
    unfold validate_qualifier validate_qualifier_cat
    dsimp only
    rw [h]

/-- Witness for C9: a key absent from the real catalog passes, and so
does a catalog entry of the declared-but-unhandled `career` type. -/
theorem C9_unknown_qualifier_passes_holds :
    validate_qualifier [] rec0 "not_a_known_key" 0 = (true, "") ∧
    validate_qualifier_cat oddCatalog [] rec0 "career_marker" 0 =
      (true, "") :=
  ⟨(C9_unknown_qualifier_passes (fun k => STAT_QUALIFIERS.lookup k) []
      rec0 "not_a_known_key" 0).2.2 (by decide),
   (C9_unknown_qualifier_passes oddCatalog [] rec0 "career_marker" 0).2.1
      {qtype := "career"} (by decide) (by decide) (by decide)⟩
